import Mathlib

/-!
Shallow embedding of `src/update_version.py` (boxmux version-bump helper).

External effects (subprocess calls, file I/O) are modelled by an `Env`
record giving the outcome of each external interaction, and a `SysState`
record holding the on-disk artifacts the script touches (the version
file, the workspace-configuration file, the version-control staging
area) together with a trace of mutating subprocess invocations.
Python exceptions are modelled by the `PyExc` enumeration and fallible
computations by `Except PyExc`.  Character classes (`\d`, `\w` of the
`re` module) are modelled over ASCII, which covers all inputs the
script ever receives (git numeric-stat output).
-/

set_option autoImplicit false

namespace UpdateVersion

/-- Python exception classes relevant to `update_version.py`.  All of them
are subclasses of `Exception`, so `except Exception` catches every one,
while `except subprocess.CalledProcessError` catches only the first. -/
inductive PyExc where
  | calledProcessError
  | valueError
  | typeError
  | keyError
  | attributeError
  | oSError
  | fileNotFoundError
  | jsonDecodeError
  deriving DecidableEq

/-- In-memory JSON values, as produced by `json.load` (Python dicts keep
insertion order, so objects are ordered association lists). -/
inductive Json where
  | null
  | bool (b : Bool)
  | num (n : Int)
  | str (s : String)
  | arr (elems : List Json)
  | obj (fields : List (String × Json))

/-- On-disk state of the workspace-configuration file: absent, present but
not valid JSON, or present with a given parsed JSON document. -/
inductive WsFile where
  | missing
  | malformed (raw : String)
  | jsonDoc (doc : Json)

/-- Mutating subprocess invocations issued by the script. -/
inductive Cmd where
  | gitAdd (path : String)

/-- State of the artifacts the script touches. -/
structure SysState where
  versionTxt : Option String
  workspace : WsFile
  staged : List String
  calls : List Cmd

/-- Outcomes of the external interactions, fixed per run: the decoded and
stripped stdout of each read-only git query (or the exception the call
raised), and the success or failure of each write-side effect.  When a
file write fails mid-way the write may leave arbitrary content behind;
the `...OnFailedWrite` fields record what the failed write left. -/
structure Env where
  describeTags : Except PyExc String
  revListCountHead : Except PyExc String
  revListCountRange : String → Except PyExc String
  logNumstat : Except PyExc String
  writeVersionFile : Except PyExc Unit
  versionTxtOnFailedWrite : Option String
  gitAdd : Except PyExc Unit
  writeWorkspace : Except PyExc Unit
  workspaceOnFailedWrite : WsFile

/-- Value of a list of decimal digit characters. -/
def digitsVal (cs : List Char) : Nat :=
  cs.foldl (fun a c => 10 * a + (c.toNat - 48)) 0

/-- Python `int` over the characters of an already-stripped string:
optional sign followed by decimal digits; anything else raises
`ValueError`.  (Underscore digit grouping is not modelled; no input of
this script contains it.) -/
def pyIntChars : List Char → Except PyExc Int
  | [] => .error .valueError
  | c :: rest =>
      if c = '-' then
        if !rest.isEmpty && rest.all Char.isDigit then .ok (-(digitsVal rest : Int))
        else .error .valueError
      else if c = '+' then
        if !rest.isEmpty && rest.all Char.isDigit then .ok (digitsVal rest : Int)
        else .error .valueError
      else
        if (c :: rest).all Char.isDigit then .ok (digitsVal (c :: rest) : Int)
        else .error .valueError

/-- Python `int(s)` on an already-stripped string. -/
def pyInt (s : String) : Except PyExc Int :=
  pyIntChars s.data

/-- Word character of the `re` module (`\w`), over ASCII. -/
def isWord (c : Char) : Bool :=
  c.isAlpha || c.isDigit || c = '_'

/-- Left-to-right scan implementing `re.findall(r'\b\d+\b', text)`.
A match of that pattern is exactly a maximal run of digits whose
neighbouring characters (if any) are non-word characters: `run` is the
reversed digit run read so far, and `prevWord` records whether the
character just before the run (or, when `run` is empty, the previous
character) was a word character, i.e. whether the start boundary fails. -/
def scanAux (prevWord : Bool) (run : List Char) : List Char → List String
  | [] =>
      if !run.isEmpty && !prevWord then [String.mk run.reverse] else []
  | c :: cs =>
      if c.isDigit then
        scanAux prevWord (c :: run) cs
      else if !run.isEmpty && !prevWord && !isWord c then
        String.mk run.reverse :: scanAux (isWord c) [] cs
      else
        scanAux (isWord c) [] cs

/-- `re.findall(r'\b\d+\b', s)`. -/
def findIntTokens (s : String) : List String :=
  scanAux false [] s.data

/-- `try: ... except subprocess.CalledProcessError: return fb` around a
computation that returns its result. -/
def tryCPE {α : Type} (x : Except PyExc α) (fb : α) : Except PyExc α :=
  match x with
  | .error .calledProcessError => .ok fb
  | r => r

/-- `get_tag_version()`: stdout of `git describe --tags --abbrev=0`,
stripped and decoded; `"v0"` if that command exits non-zero. -/
def get_tag_version (env : Env) : Except PyExc String :=
  tryCPE env.describeTags "v0"

/-- `get_commit_count_since_tag(tag_version)`: `int` of the stripped
stdout of `git rev-list --count HEAD` (when the tag is the sentinel
`"v0"`) or of `git rev-list --count {tag}..HEAD`; `0` if the command
exits non-zero.  A `ValueError` from `int` is not caught. -/
def get_commit_count_since_tag (env : Env) (tag_version : String) : Except PyExc Int :=
  tryCPE
    (match (if tag_version = "v0" then env.revListCountHead
            else env.revListCountRange tag_version) with
     | .error e => .error e
     | .ok s => pyInt s)
    0

/-- The list comprehension `[int(s) for s in tokens]`: left to right, the
first failing `int` raises. -/
def mapPyInt : List String → Except PyExc (List Int)
  | [] => .ok []
  | t :: ts =>
      match pyInt t with
      | .error e => .error e
      | .ok n =>
          match mapPyInt ts with
          | .error e => .error e
          | .ok ns => .ok (n :: ns)

/-- `get_total_changes()`: sum of `int` over `re.findall(r'\b\d+\b', ...)`
applied to the stripped output of `git log --pretty=tformat: --numstat`;
`0` if the command exits non-zero. -/
def get_total_changes (env : Env) : Except PyExc Int :=
  tryCPE
    (match env.logNumstat with
     | .error e => .error e
     | .ok log_stat =>
         match mapPyInt (findIntTokens log_stat) with
         | .error e => .error e
         | .ok numbers => .ok numbers.sum)
    0

/-- `update_version(new_version)`: writes `new_version` plus a newline to
`os.path.join('.', "version.txt")` (i.e. `./version.txt`), overwriting
any previous content, then runs `git add ./version.txt`; every exception
is caught and logged, so the function always returns. -/
def update_version (env : Env) (new_version : String) (st : SysState) : SysState :=
  match env.writeVersionFile with
  | .error _ =>
      { st with versionTxt := env.versionTxtOnFailedWrite }
  | .ok _ =>
      let st1 : SysState :=
        { st with
            versionTxt := some (new_version ++ "\n"),
            calls := st.calls ++ [Cmd.gitAdd "./version.txt"] }
      match env.gitAdd with
      | .ok _ => { st1 with staged := st1.staged ++ ["./version.txt"] }
      | .error _ => st1

/-- Python dict lookup on an ordered association list. -/
def lookupObj (k : String) : List (String × Json) → Option Json
  | [] => none
  | (k', v) :: rest => if k' = k then some v else lookupObj k rest

/-- Python dict item assignment `d[k] = v`: replaces the value of an
existing key in place, otherwise appends the new pair at the end. -/
def objSet (fields : List (String × Json)) (k : String) (v : Json) : List (String × Json) :=
  match fields with
  | [] => [(k, v)]
  | (k', v') :: rest =>
      if k' = k then (k, v) :: rest else (k', v') :: objSet rest k v

/-- Python subscript `j[k]` with a string key: a `KeyError` on a dict
without the key, a `TypeError` on any non-dict value. -/
def pyGetItem (j : Json) (k : String) : Except PyExc Json :=
  match j with
  | .obj fields =>
      match lookupObj k fields with
      | some v => .ok v
      | none => .error .keyError
  | _ => .error .typeError

/-- Python `folder['path'] == "../boxmux"`: true exactly on that string
(equality against a string is false for every non-string JSON value). -/
def isTargetPath (p : Json) : Bool :=
  match p with
  | .str s => s = "../boxmux"
  | _ => false

/-- The folder record appended when no entry matches the target path. -/
def mkFolder (label : String) : Json :=
  Json.obj [("path", Json.str "../boxmux"), ("name", Json.str label)]

/-- The `for folder in workspace_config['folders']` loop over a list:
stops at the first entry whose `path` equals the target, rewriting its
`name`; reports whether a match was found; an exception while inspecting
an entry propagates. -/
def updateFolders (label : String) : List Json → Except PyExc (List Json × Bool)
  | [] => .ok ([], false)
  | f :: fs =>
      match pyGetItem f "path" with
      | .error e => .error e
      | .ok p =>
          if isTargetPath p then
            match f with
            | .obj fields => .ok (Json.obj (objSet fields "name" (Json.str label)) :: fs, true)
            | _ => .error .typeError
          else
            match updateFolders label fs with
            | .error e => .error e
            | .ok (fs2, found) => .ok (f :: fs2, found)

/-- The in-memory body of `update_folder_label`: read
`workspace_config['folders']`, run the loop, append a fresh record when
no match was found, and produce the document to be dumped back.
Iterating a non-list raises: a non-empty dict yields its first key (a
string) whose subscript raises `TypeError`, a non-empty string yields a
character with the same outcome, an empty dict or string survives the
loop but then fails on `.append` with `AttributeError`, and any other
value raises `TypeError` at the `for` itself. -/
def transformConfig (label : String) (cfg : Json) : Except PyExc Json :=
  match cfg with
  | .obj fields =>
      match lookupObj "folders" fields with
      | none => .error .keyError
      | some folders =>
          match folders with
          | .arr fs =>
              match updateFolders label fs with
              | .error e => .error e
              | .ok (fs2, found) =>
                  let fs3 := if found then fs2 else fs2 ++ [mkFolder label]
                  .ok (Json.obj (objSet fields "folders" (Json.arr fs3)))
          | .obj m => .error (if m.isEmpty then .attributeError else .typeError)
          | .str s => .error (if s.isEmpty then .attributeError else .typeError)
          | _ => .error .typeError
  | _ => .error .typeError

/-- `open(workspace_file_path, "r")` followed by `json.load`: a missing
file raises `FileNotFoundError`, unparsable text raises
`json.JSONDecodeError`. -/
def readWs : WsFile → Except PyExc Json
  | .missing => .error .fileNotFoundError
  | .malformed _ => .error .jsonDecodeError
  | .jsonDoc doc => .ok doc

/-- `update_folder_label(new_version)`: read and parse the workspace
file, transform the document, and dump it back with `indent=2`; every
exception is caught and logged, leaving the file untouched when the
failure happens before the write-back. -/
def update_folder_label (env : Env) (new_version : String) (st : SysState) : SysState :=
  let label := "boxmux v" ++ new_version
  match readWs st.workspace with
  | .error _ => st
  | .ok workspace_config =>
      match transformConfig label workspace_config with
      | .error _ => st
      | .ok cfg2 =>
          match env.writeWorkspace with
          | .ok _ => { st with workspace := .jsonDoc cfg2 }
          | .error _ => { st with workspace := env.workspaceOnFailedWrite }

/-- `"{}.{}.{}".format(major_version[1:], minor_version, patch_version)`. -/
def full_version (major_version : String) (minor_version patch_version : Int) : String :=
  major_version.drop 1 ++ "." ++ toString minor_version ++ "." ++ toString patch_version

/-- The `if __name__ == "__main__":` block: derive the three components,
format the full version, then run the two updaters in order.  The
updaters never raise; an uncaught exception from the derivation
propagates out of the process. -/
def mainProgram (env : Env) (st : SysState) : Except PyExc SysState :=
  match get_tag_version env with
  | .error e => .error e
  | .ok major_version =>
      match get_commit_count_since_tag env major_version with
      | .error e => .error e
      | .ok minor_version =>
          match get_total_changes env with
          | .error e => .error e
          | .ok patch_version =>
              let fv := full_version major_version minor_version patch_version
              let st1 := update_version env fv st
              let st2 := update_folder_label env fv st1
              .ok st2

/-- An initial state with no artifacts present. -/
def stEmpty : SysState :=
  { versionTxt := none, workspace := .missing, staged := [], calls := [] }

/-- An environment in which every external interaction succeeds. -/
def envGood : Env :=
  { describeTags := .ok "v1"
    revListCountHead := .ok "7"
    revListCountRange := fun _ => .ok "5"
    logNumstat := .ok "3 10 0"
    writeVersionFile := .ok ()
    versionTxtOnFailedWrite := none
    gitAdd := .ok ()
    writeWorkspace := .ok ()
    workspaceOnFailedWrite := .missing }

/-- An environment whose range commit-count query succeeds but prints
text that is not a decimal integer. -/
def envBadCount : Env :=
  { envGood with revListCountRange := fun _ => .ok "abc" }

/-- An environment in which opening or writing the version file raises. -/
def envFailVersionWrite : Env :=
  { envGood with writeVersionFile := .error .oSError }

/-- An environment like `envGood` whose numeric-stat log sums to 42. -/
def envC6 : Env :=
  { envGood with logNumstat := .ok "40 2" }

/-- A state whose workspace document already has a boxmux folder entry
plus an unrelated top-level key. -/
def stWithBoxmux : SysState :=
  { stEmpty with workspace := .jsonDoc (Json.obj
      [("folders", Json.arr
          [Json.obj [("path", Json.str "../boxmux"), ("name", Json.str "old")]]),
       ("settings", Json.null)]) }

/-- A state whose workspace document has one folder entry with a
different path. -/
def stNoBoxmux : SysState :=
  { stEmpty with workspace := .jsonDoc (Json.obj
      [("folders", Json.arr
          [Json.obj [("path", Json.str "../other"), ("name", Json.str "other")]])]) }

/-! ### Association-list lemmas (Python dict semantics) -/

theorem lookupObj_objSet_self (fields : List (String × Json)) (k : String) (v : Json) :
    lookupObj k (objSet fields k v) = some v := by
  induction fields with
  | nil => simp [objSet, lookupObj]
  | cons p rest ih =>
      obtain ⟨k', v'⟩ := p
      by_cases h : k' = k
      · subst h; simp [objSet, lookupObj]
      · simp [objSet, lookupObj, h, ih]

theorem lookupObj_objSet_ne (fields : List (String × Json)) (k k' : String) (v : Json)
    (h : k' ≠ k) : lookupObj k' (objSet fields k v) = lookupObj k' fields := by
  induction fields with
  | nil => simp [objSet, lookupObj, Ne.symm h]
  | cons p rest ih =>
      obtain ⟨k₀, v₀⟩ := p
      by_cases h0 : k₀ = k
      · subst h0
        simp [objSet, lookupObj, Ne.symm h]
      · simp [objSet, lookupObj, h0, ih]

theorem objSet_objSet_same (fields : List (String × Json)) (k : String) (v : Json) :
    objSet (objSet fields k v) k v = objSet fields k v := by
  induction fields with
  | nil => simp [objSet]
  | cons p rest ih =>
      obtain ⟨k₀, v₀⟩ := p
      by_cases h0 : k₀ = k
      · subst h0; simp [objSet]
      · simp [objSet, h0, ih]

theorem pyGetItem_ok_inv {f : Json} {k : String} {p : Json}
    (h : pyGetItem f k = .ok p) :
    ∃ fields, f = Json.obj fields ∧ lookupObj k fields = some p := by
  cases f with
  | obj fields =>
      refine ⟨fields, rfl, ?_⟩
      simp only [pyGetItem] at h
      cases hl : lookupObj k fields with
      | none => rw [hl] at h; exact Except.noConfusion h
      | some v => rw [hl] at h; injection h with h; rw [h]
  | null => exact Except.noConfusion h
  | bool b => exact Except.noConfusion h
  | num n => exact Except.noConfusion h
  | str s => exact Except.noConfusion h
  | arr xs => exact Except.noConfusion h

/-! ### Lemmas about the folder-update loop -/

theorem updateFolders_all_miss (label : String) (fs : List Json)
    (h : ∀ g ∈ fs, ∃ p, pyGetItem g "path" = .ok p ∧ isTargetPath p = false) :
    updateFolders label fs = .ok (fs, false) := by
  induction fs with
  | nil => rfl
  | cons f rest ih =>
      obtain ⟨p, hp, hnt⟩ := h f (by simp)
      simp only [updateFolders]
      rw [hp]
      simp only [hnt, Bool.false_eq_true, if_false]
      rw [ih (fun g hg => h g (by simp [hg]))]

theorem updateFolders_match (label : String) (a b : List Json) (fkvs : List (String × Json))
    (ha : ∀ g ∈ a, ∃ p, pyGetItem g "path" = .ok p ∧ isTargetPath p = false)
    (hf : lookupObj "path" fkvs = some (Json.str "../boxmux")) :
    updateFolders label (a ++ Json.obj fkvs :: b) =
      .ok (a ++ Json.obj (objSet fkvs "name" (Json.str label)) :: b, true) := by
  induction a with
  | nil =>
      simp only [List.nil_append, updateFolders, pyGetItem]
      rw [hf]
      simp [isTargetPath]
  | cons g rest ih =>
      obtain ⟨p, hp, hnt⟩ := ha g (by simp)
      simp only [List.cons_append, updateFolders]
      rw [hp]
      simp only [hnt, Bool.false_eq_true, if_false, List.append_eq]
      rw [ih (fun g' hg => ha g' (by simp [hg]))]

theorem updateFolders_found_idem (label : String) (fs fs2 : List Json)
    (h : updateFolders label fs = .ok (fs2, true)) :
    updateFolders label fs2 = .ok (fs2, true) := by
  induction fs generalizing fs2 with
  | nil =>
      simp only [updateFolders] at h
      injection h with h
      exact absurd (congrArg Prod.snd h) (by simp)
  | cons f rest ih =>
      cases hget : pyGetItem f "path" with
      | error e =>
          simp only [updateFolders, hget] at h
          exact Except.noConfusion h
      | ok p =>
          cases ht : isTargetPath p with
          | true =>
              obtain ⟨fkvs, rfl, hlk⟩ := pyGetItem_ok_inv hget
              simp only [updateFolders, hget, ht, if_true] at h
              simp only [Except.ok.injEq, Prod.mk.injEq, and_true] at h
              subst h
              simp only [updateFolders, pyGetItem,
                lookupObj_objSet_ne fkvs "name" "path" (Json.str label) (by decide), hlk,
                ht, if_true, objSet_objSet_same]
          | false =>
              simp only [updateFolders, hget, ht, Bool.false_eq_true, if_false] at h
              cases hrec : updateFolders label rest with
              | error e =>
                  simp only [hrec] at h
                  exact Except.noConfusion h
              | ok pr =>
                  obtain ⟨fs3, found⟩ := pr
                  simp only [hrec] at h
                  simp only [Except.ok.injEq, Prod.mk.injEq] at h
                  obtain ⟨h1, h2⟩ := h
                  subst h1
                  subst h2
                  simp only [updateFolders, hget, ht, Bool.false_eq_true, if_false,
                    ih fs3 hrec]

theorem updateFolders_notfound_eq (label : String) (fs fs2 : List Json)
    (h : updateFolders label fs = .ok (fs2, false)) : fs2 = fs := by
  induction fs generalizing fs2 with
  | nil =>
      simp only [updateFolders] at h
      injection h with h
      exact (congrArg Prod.fst h).symm
  | cons f rest ih =>
      cases hget : pyGetItem f "path" with
      | error e =>
          simp only [updateFolders, hget] at h
          exact Except.noConfusion h
      | ok p =>
          cases ht : isTargetPath p with
          | true =>
              obtain ⟨fkvs, rfl, hlk⟩ := pyGetItem_ok_inv hget
              simp only [updateFolders, hget, ht, if_true] at h
              simp only [Except.ok.injEq, Prod.mk.injEq] at h
              exact absurd h.2 (by simp)
          | false =>
              simp only [updateFolders, hget, ht, Bool.false_eq_true, if_false] at h
              cases hrec : updateFolders label rest with
              | error e =>
                  simp only [hrec] at h
                  exact Except.noConfusion h
              | ok pr =>
                  obtain ⟨fs3, found⟩ := pr
                  simp only [hrec] at h
                  simp only [Except.ok.injEq, Prod.mk.injEq] at h
                  obtain ⟨h1, h2⟩ := h
                  subst h2
                  rw [← h1, ih fs3 hrec]

theorem updateFolders_notfound_append (label : String) (fs : List Json)
    (h : updateFolders label fs = .ok (fs, false)) :
    updateFolders label (fs ++ [mkFolder label]) = .ok (fs ++ [mkFolder label], true) := by
  induction fs with
  | nil =>
      show updateFolders label [mkFolder label] = .ok ([mkFolder label], true)
      rfl
  | cons f rest ih =>
      cases hget : pyGetItem f "path" with
      | error e =>
          simp only [updateFolders, hget] at h
          exact Except.noConfusion h
      | ok p =>
          cases ht : isTargetPath p with
          | true =>
              obtain ⟨fkvs, rfl, hlk⟩ := pyGetItem_ok_inv hget
              simp only [updateFolders, hget, ht, if_true] at h
              simp only [Except.ok.injEq, Prod.mk.injEq] at h
              exact absurd h.2 (by simp)
          | false =>
              simp only [updateFolders, hget, ht, Bool.false_eq_true, if_false] at h
              cases hrec : updateFolders label rest with
              | error e =>
                  simp only [hrec] at h
                  exact Except.noConfusion h
              | ok pr =>
                  obtain ⟨fs3, found⟩ := pr
                  simp only [hrec] at h
                  simp only [Except.ok.injEq, Prod.mk.injEq] at h
                  obtain ⟨h1, h2⟩ := h
                  subst h2
                  have h1' : fs3 = rest := by injection h1
                  subst h1'
                  simp only [List.cons_append, updateFolders, hget, ht, Bool.false_eq_true,
                    if_false, List.append_eq, ih hrec]

theorem transformConfig_idem (label : String) (cfg cfg2 : Json)
    (h : transformConfig label cfg = .ok cfg2) :
    transformConfig label cfg2 = .ok cfg2 := by
  cases cfg with
  | obj fields =>
      cases hlf : lookupObj "folders" fields with
      | none =>
          simp only [transformConfig, hlf] at h
          exact Except.noConfusion h
      | some folders =>
          cases folders with
          | arr fs =>
              cases hup : updateFolders label fs with
              | error e =>
                  simp only [transformConfig, hlf, hup] at h
                  exact Except.noConfusion h
              | ok pr =>
                  obtain ⟨fs2, found⟩ := pr
                  simp only [transformConfig, hlf, hup] at h
                  simp only [Except.ok.injEq] at h
                  subst h
                  cases found with
                  | true =>
                      simp [transformConfig, lookupObj_objSet_self,
                        updateFolders_found_idem label fs fs2 hup, objSet_objSet_same]
                  | false =>
                      have hfs2 : fs2 = fs := updateFolders_notfound_eq label fs fs2 hup
                      subst hfs2
                      simp [transformConfig, lookupObj_objSet_self,
                        updateFolders_notfound_append label fs2 hup, objSet_objSet_same]
          | obj m =>
              simp only [transformConfig, hlf] at h
              exact Except.noConfusion h
          | str s =>
              simp only [transformConfig, hlf] at h
              exact Except.noConfusion h
          | null =>
              simp only [transformConfig, hlf] at h
              exact Except.noConfusion h
          | bool b =>
              simp only [transformConfig, hlf] at h
              exact Except.noConfusion h
          | num n =>
              simp only [transformConfig, hlf] at h
              exact Except.noConfusion h
  | null => exact Except.noConfusion h
  | bool b => exact Except.noConfusion h
  | num n => exact Except.noConfusion h
  | str s => exact Except.noConfusion h
  | arr xs => exact Except.noConfusion h

/-! ### Lemmas about integer-token extraction and parsing -/

theorem mkRunToken_shape (run : List Char) (hne : run.isEmpty = false)
    (hrun : run.all Char.isDigit = true) :
    (String.mk run.reverse).data ≠ [] ∧ (String.mk run.reverse).data.all Char.isDigit = true := by
  constructor
  · show run.reverse ≠ []
    cases run with
    | nil => exact absurd hne (by simp [List.isEmpty])
    | cons a as => simp
  · show run.reverse.all Char.isDigit = true
    rw [List.all_eq_true] at hrun ⊢
    intro x hx
    exact hrun x (List.mem_reverse.mp hx)

theorem scanAux_shape (l : List Char) :
    ∀ (prevWord : Bool) (run : List Char), run.all Char.isDigit = true →
      ∀ t ∈ scanAux prevWord run l, t.data ≠ [] ∧ t.data.all Char.isDigit = true := by
  induction l with
  | nil =>
      intro prevWord run hrun t ht
      simp only [scanAux] at ht
      by_cases hc : (!run.isEmpty && !prevWord) = true
      · rw [if_pos hc] at ht
        simp only [List.mem_singleton] at ht
        subst ht
        simp only [Bool.and_eq_true, Bool.not_eq_true'] at hc
        exact mkRunToken_shape run hc.1 hrun
      · rw [if_neg hc] at ht
        exact absurd ht (List.not_mem_nil t)
  | cons c cs ih =>
      intro prevWord run hrun t ht
      simp only [scanAux] at ht
      by_cases hd : c.isDigit = true
      · rw [if_pos hd] at ht
        refine ih prevWord (c :: run) ?_ t ht
        simp only [List.all_cons, hd, hrun, Bool.and_self]
      · rw [if_neg hd] at ht
        by_cases hc : (!run.isEmpty && !prevWord && !isWord c) = true
        · rw [if_pos hc] at ht
          rcases List.mem_cons.mp ht with rfl | ht2
          · simp only [Bool.and_eq_true, Bool.not_eq_true'] at hc
            exact mkRunToken_shape run hc.1.1 hrun
          · exact ih (isWord c) [] rfl t ht2
        · rw [if_neg hc] at ht
          exact ih (isWord c) [] rfl t ht

theorem findIntTokens_shape (s : String) :
    ∀ t ∈ findIntTokens s, t.data ≠ [] ∧ t.data.all Char.isDigit = true :=
  fun t ht => scanAux_shape s.data false [] rfl t ht

theorem pyIntChars_digits (cs : List Char) (hne : cs ≠ [])
    (hd : cs.all Char.isDigit = true) :
    pyIntChars cs = .ok (digitsVal cs : Int) := by
  cases cs with
  | nil => exact absurd rfl hne
  | cons c rest =>
      have hc : c.isDigit = true := by
        rw [List.all_eq_true] at hd
        exact hd c (by simp)
      have hcd : ¬(c = '-') := by
        intro hh; subst hh
        exact absurd hc (by decide)
      have hcp : ¬(c = '+') := by
        intro hh; subst hh
        exact absurd hc (by decide)
      simp only [pyIntChars]
      rw [if_neg hcd, if_neg hcp, if_pos hd]

theorem mapPyInt_ok (ts : List String)
    (h : ∀ t ∈ ts, t.data ≠ [] ∧ t.data.all Char.isDigit = true) :
    mapPyInt ts = .ok (ts.map fun t => (digitsVal t.data : Int)) := by
  induction ts with
  | nil => rfl
  | cons t ts ih =>
      obtain ⟨h1, h2⟩ := h t (by simp)
      have hp : pyInt t = .ok (digitsVal t.data : Int) := pyIntChars_digits t.data h1 h2
      simp only [mapPyInt, hp, ih (fun u hu => h u (by simp [hu])), List.map_cons]

theorem tokenSum_nonneg (ts : List String) :
    0 ≤ (ts.map fun t => (digitsVal t.data : Int)).sum := by
  apply List.sum_nonneg
  intro x hx
  obtain ⟨t, -, rfl⟩ := List.mem_map.mp hx
  exact Int.natCast_nonneg _

theorem get_total_changes_ok (env : Env) (s : String) (h : env.logNumstat = .ok s) :
    get_total_changes env =
      .ok (((findIntTokens s).map fun t => (digitsVal t.data : Int)).sum) := by
  have hm := mapPyInt_ok (findIntTokens s) (findIntTokens_shape s)
  simp only [get_total_changes, h, hm, tryCPE]

theorem update_folder_label_frame (env : Env) (new_version : String) (st : SysState) :
    (update_folder_label env new_version st).versionTxt = st.versionTxt ∧
    (update_folder_label env new_version st).staged = st.staged ∧
    (update_folder_label env new_version st).calls = st.calls := by
  cases h1 : readWs st.workspace with
  | error e => simp [update_folder_label, h1]
  | ok cfg =>
      cases h2 : transformConfig ("boxmux v" ++ new_version) cfg with
      | error e => simp [update_folder_label, h1, h2]
      | ok cfg2 =>
          cases h3 : env.writeWorkspace with
          | ok u => simp [update_folder_label, h1, h2, h3]
          | error e => simp [update_folder_label, h1, h2, h3]

/-! ### Claims -/

/-- C1, counterexample: the claim says no exception ever propagates past
the entry point, whatever internal step fails.  In an environment where
`git rev-list --count v1..HEAD` succeeds but prints text that is not a
decimal integer, `int` raises `ValueError`, which the surrounding
`except subprocess.CalledProcessError` does not catch, so the entry
point terminates with an uncaught exception. -/
theorem claim_C1_counterexample :
    mainProgram envBadCount stEmpty = .error PyExc.valueError := rfl

/-- C1, amended: failures of the version-control queries are suppressed
only when they are `CalledProcessError` (non-zero exit); under the
assumptions that every query failure is a `CalledProcessError` and that
every successful `rev-list --count` output parses as an integer, the
entry point completes without exception (the two updaters catch every
exception unconditionally). -/
theorem claim_C1_amended (env : Env) (st : SysState)
    (h1 : ∀ e, env.describeTags = .error e → e = PyExc.calledProcessError)
    (h2 : ∀ e, env.revListCountHead = .error e → e = PyExc.calledProcessError)
    (h3 : ∀ tag e, env.revListCountRange tag = .error e → e = PyExc.calledProcessError)
    (h4 : ∀ s, env.revListCountHead = .ok s → ∃ n, pyInt s = .ok n)
    (h5 : ∀ tag s, env.revListCountRange tag = .ok s → ∃ n, pyInt s = .ok n)
    (h6 : ∀ e, env.logNumstat = .error e → e = PyExc.calledProcessError) :
    ∃ st2, mainProgram env st = .ok st2 := by
  obtain ⟨mj, hmj⟩ : ∃ mj, get_tag_version env = .ok mj := by
    cases hd : env.describeTags with
    | ok s => exact ⟨s, by simp [get_tag_version, tryCPE, hd]⟩
    | error e =>
        have he := h1 e hd
        subst he
        exact ⟨"v0", by simp [get_tag_version, tryCPE, hd]⟩
  obtain ⟨mi, hmi⟩ : ∃ mi, get_commit_count_since_tag env mj = .ok mi := by
    by_cases htag : mj = "v0"
    · cases hh : env.revListCountHead with
      | ok s =>
          obtain ⟨n, hn⟩ := h4 s hh
          exact ⟨n, by simp [get_commit_count_since_tag, tryCPE, htag, hh, hn]⟩
      | error e =>
          have he := h2 e hh
          subst he
          exact ⟨0, by simp [get_commit_count_since_tag, tryCPE, htag, hh]⟩
    · cases hh : env.revListCountRange mj with
      | ok s =>
          obtain ⟨n, hn⟩ := h5 mj s hh
          exact ⟨n, by simp [get_commit_count_since_tag, tryCPE, htag, hh, hn]⟩
      | error e =>
          have he := h3 mj e hh
          subst he
          exact ⟨0, by simp [get_commit_count_since_tag, tryCPE, htag, hh]⟩
  obtain ⟨pt, hpt⟩ : ∃ pt, get_total_changes env = .ok pt := by
    cases hl : env.logNumstat with
    | ok s => exact ⟨_, get_total_changes_ok env s hl⟩
    | error e =>
        have he := h6 e hl
        subst he
        exact ⟨0, by simp [get_total_changes, tryCPE, hl]⟩
  refine ⟨update_folder_label env (full_version mj mi pt)
    (update_version env (full_version mj mi pt) st), ?_⟩
  simp [mainProgram, hmj, hmi, hpt]

/-- C1, witness: in an all-successful environment the entry point
completes without exception. -/
theorem claim_C1_witness : ∃ st2, mainProgram envGood stEmpty = .ok st2 :=
  claim_C1_amended envGood stEmpty
    (by intro e h; simp [envGood] at h)
    (by intro e h; simp [envGood] at h)
    (by intro tag e h; simp [envGood] at h)
    (by intro s h; simp only [envGood] at h; injection h with h; subst h; exact ⟨7, rfl⟩)
    (by intro tag s h; simp only [envGood] at h; injection h with h; subst h; exact ⟨5, rfl⟩)
    (by intro e h; simp [envGood] at h)

/-- C4: when the log query succeeds, `get_total_changes` returns the sum
of the values of every standalone integer token of the log text (the
matches of the word-bounded digit-run pattern); in particular it returns
13 whenever those tokens are exactly "3", "10", "0". -/
theorem claim_C4 (env : Env) (s : String) (h : env.logNumstat = .ok s) :
    get_total_changes env =
      .ok (((findIntTokens s).map fun t => (digitsVal t.data : Int)).sum) ∧
    (findIntTokens s = ["3", "10", "0"] → get_total_changes env = .ok 13) := by
  refine ⟨get_total_changes_ok env s h, fun h2 => ?_⟩
  rw [get_total_changes_ok env s h, h2]
  rfl

/-- C4, witness: on the log text "3 10 0" the result is 13. -/
theorem claim_C4_witness : get_total_changes envGood = .ok 13 :=
  (claim_C4 envGood "3 10 0" rfl).2 rfl

/-- C5: the commit-count query result is passed through unchanged when
it parses as a (non-negative) integer `c`, and defaults to 0 when the
query exits non-zero; the total-changes query likewise defaults to 0 on
non-zero exit, and every value `get_total_changes` returns is
non-negative (a sum of values of unsigned digit tokens). -/
theorem claim_C5 (env : Env) (tag : String) :
    (∀ (s : String) (c : Nat),
        (if tag = "v0" then env.revListCountHead else env.revListCountRange tag) = .ok s →
        pyInt s = .ok (c : Int) →
        get_commit_count_since_tag env tag = .ok (c : Int) ∧ 0 ≤ (c : Int)) ∧
    ((if tag = "v0" then env.revListCountHead else env.revListCountRange tag) =
        .error PyExc.calledProcessError →
      get_commit_count_since_tag env tag = .ok 0) ∧
    (env.logNumstat = .error PyExc.calledProcessError → get_total_changes env = .ok 0) ∧
    (∀ n : Int, get_total_changes env = .ok n → 0 ≤ n) := by
  refine ⟨?_, ?_, ?_, ?_⟩
  · intro s c hq hs
    refine ⟨?_, Int.natCast_nonneg c⟩
    simp only [get_commit_count_since_tag, hq, hs, tryCPE]
  · intro hq
    simp only [get_commit_count_since_tag, hq, tryCPE]
  · intro hl
    simp only [get_total_changes, hl, tryCPE]
  · intro n hn
    cases hl : env.logNumstat with
    | ok s =>
        rw [get_total_changes_ok env s hl] at hn
        injection hn with hn
        rw [← hn]
        exact tokenSum_nonneg _
    | error e =>
        cases e <;> simp [get_total_changes, tryCPE, hl] at hn
        omega

/-- C5, witness: a commit-count query printing "7" yields exactly 7. -/
theorem claim_C5_witness : get_commit_count_since_tag envGood "v0" = .ok 7 :=
  ((claim_C5 envGood "v0").1 "7" 7 rfl rfl).1

/-- C6: `full_version` is the tag with its first character stripped,
a dot, the commit count, a dot, and the change count; on tag "v1",
commit count 5 and total changes 42 it equals "1.5.42", and the run
writes exactly that version (plus newline) to the version file. -/
theorem claim_C6 (env : Env) (st : SysState)
    (h1 : get_tag_version env = .ok "v1")
    (h2 : get_commit_count_since_tag env "v1" = .ok 5)
    (h3 : get_total_changes env = .ok 42)
    (hw : env.writeVersionFile = .ok ()) :
    full_version "v1" 5 42 = "1.5.42" ∧
    ∃ st2, mainProgram env st = .ok st2 ∧ st2.versionTxt = some "1.5.42\n" := by
  have hfv : full_version "v1" 5 42 = "1.5.42" := rfl
  refine ⟨hfv, update_folder_label env "1.5.42" (update_version env "1.5.42" st), ?_, ?_⟩
  · simp only [mainProgram, h1, h2, h3, hfv]
  · rw [(update_folder_label_frame env "1.5.42" (update_version env "1.5.42" st)).1]
    cases hg : env.gitAdd with
    | ok u => simp [update_version, hw, hg]
    | error e => simp [update_version, hw, hg]

/-- C6, witness: a concrete environment with tag "v1", commit count 5
and total changes 42 ends with version file content "1.5.42\n". -/
theorem claim_C6_witness :
    ∃ st2, mainProgram envC6 stEmpty = .ok st2 ∧ st2.versionTxt = some "1.5.42\n" :=
  (claim_C6 envC6 stEmpty rfl rfl rfl rfl).2

/-- C8: when the version-file write succeeds, the file afterwards holds
exactly the version string followed by one newline. -/
theorem claim_C8 (env : Env) (new_version : String) (st : SysState)
    (hw : env.writeVersionFile = .ok ()) :
    (update_version env new_version st).versionTxt = some (new_version ++ "\n") := by
  cases hg : env.gitAdd with
  | ok u => simp [update_version, hw, hg]
  | error e => simp [update_version, hw, hg]

/-- C8, witness: writing version "1.5.42" leaves file content
"1.5.42\n". -/
theorem claim_C8_witness :
    (update_version envGood "1.5.42" stEmpty).versionTxt = some "1.5.42\n" :=
  claim_C8 envGood "1.5.42" stEmpty rfl

/-- C9: if reading the workspace file raises (missing file or malformed
JSON), `update_folder_label` changes nothing: the write-back only runs
after a successful read and parse inside the same guarded block. -/
theorem claim_C9 (env : Env) (new_version : String) (st : SysState)
    (h : st.workspace = WsFile.missing ∨ ∃ raw, st.workspace = WsFile.malformed raw) :
    update_folder_label env new_version st = st := by
  obtain h | ⟨raw, h⟩ := h <;> simp [update_folder_label, readWs, h]

/-- C9, witness: with the workspace file missing, the state is left
untouched. -/
theorem claim_C9_witness : update_folder_label envGood "1.5.42" stEmpty = stEmpty :=
  claim_C9 envGood "1.5.42" stEmpty (Or.inl rfl)

/-- C10: if writing the version file raises, the staging command is
never invoked: the git index and the trace of mutating subprocess calls
are unchanged. -/
theorem claim_C10 (env : Env) (new_version : String) (st : SysState) (e : PyExc)
    (hw : env.writeVersionFile = .error e) :
    (update_version env new_version st).staged = st.staged ∧
    (update_version env new_version st).calls = st.calls := by
  constructor <;> simp [update_version, hw]

/-- C2: on a workspace document (an object whose "folders" key holds an
array of folder records, each an object with a "path" field) whose
array contains an entry with path "../boxmux", and with the write-back
succeeding, `update_folder_label` rewrites only the name of the first
such entry to "boxmux v" plus the version: entries before it (all
non-matching) and after it are kept verbatim, every other field of the
matched entry keeps its value, every other top-level key keeps its
value, and the version file and staging area are untouched. -/
theorem claim_C2 (env : Env) (v : String) (st : SysState)
    (fields : List (String × Json)) (a b : List Json) (fkvs : List (String × Json))
    (hws : st.workspace = WsFile.jsonDoc (Json.obj fields))
    (hfold : lookupObj "folders" fields = some (Json.arr (a ++ Json.obj fkvs :: b)))
    (ha : ∀ g ∈ a, ∃ p, pyGetItem g "path" = .ok p ∧ isTargetPath p = false)
    (hf : lookupObj "path" fkvs = some (Json.str "../boxmux"))
    (hw : env.writeWorkspace = .ok ()) :
    (update_folder_label env v st).workspace =
      WsFile.jsonDoc (Json.obj (objSet fields "folders"
        (Json.arr (a ++ Json.obj (objSet fkvs "name" (Json.str ("boxmux v" ++ v))) :: b)))) ∧
    lookupObj "name" (objSet fkvs "name" (Json.str ("boxmux v" ++ v))) =
      some (Json.str ("boxmux v" ++ v)) ∧
    (∀ k, k ≠ "name" →
      lookupObj k (objSet fkvs "name" (Json.str ("boxmux v" ++ v))) = lookupObj k fkvs) ∧
    (∀ k, k ≠ "folders" →
      lookupObj k (objSet fields "folders"
        (Json.arr (a ++ Json.obj (objSet fkvs "name" (Json.str ("boxmux v" ++ v))) :: b))) =
        lookupObj k fields) ∧
    (update_folder_label env v st).versionTxt = st.versionTxt ∧
    (update_folder_label env v st).staged = st.staged := by
  have hup := updateFolders_match ("boxmux v" ++ v) a b fkvs ha hf
  have htr : transformConfig ("boxmux v" ++ v) (Json.obj fields) =
      .ok (Json.obj (objSet fields "folders"
        (Json.arr (a ++ Json.obj (objSet fkvs "name" (Json.str ("boxmux v" ++ v))) :: b)))) := by
    simp [transformConfig, hfold, hup]
  refine ⟨?_,
    lookupObj_objSet_self fkvs "name" (Json.str ("boxmux v" ++ v)),
    fun k hk => lookupObj_objSet_ne fkvs "name" k (Json.str ("boxmux v" ++ v)) hk,
    fun k hk => lookupObj_objSet_ne fields "folders" k
      (Json.arr (a ++ Json.obj (objSet fkvs "name" (Json.str ("boxmux v" ++ v))) :: b)) hk,
    (update_folder_label_frame env v st).1,
    (update_folder_label_frame env v st).2.1⟩
  simp [update_folder_label, hws, readWs, htr, hw]

/-- C2, witness: a two-key document with a matching folder entry gets
exactly its name rewritten. -/
theorem claim_C2_witness :
    (update_folder_label envGood "1.5.42" stWithBoxmux).workspace =
      WsFile.jsonDoc (Json.obj
        [("folders", Json.arr
            [Json.obj [("path", Json.str "../boxmux"), ("name", Json.str "boxmux v1.5.42")]]),
         ("settings", Json.null)]) :=
  (claim_C2 envGood "1.5.42" stWithBoxmux
    [("folders", Json.arr
        [Json.obj [("path", Json.str "../boxmux"), ("name", Json.str "old")]]),
     ("settings", Json.null)]
    [] []
    [("path", Json.str "../boxmux"), ("name", Json.str "old")]
    rfl rfl (fun g hg => absurd hg (List.not_mem_nil g)) rfl rfl).1

/-- C3: with the write-back succeeding, running `update_folder_label`
twice with the same version produces the same final state as running it
once, for every initial workspace document (including unreadable ones,
where both runs leave the state untouched). -/
theorem claim_C3 (env : Env) (v : String) (st : SysState)
    (hw : env.writeWorkspace = .ok ()) :
    update_folder_label env v (update_folder_label env v st) =
      update_folder_label env v st := by
  cases h1 : readWs st.workspace with
  | error e =>
      have hst : update_folder_label env v st = st := by
        simp [update_folder_label, h1]
      rw [hst]
      exact hst
  | ok cfg =>
      cases h2 : transformConfig ("boxmux v" ++ v) cfg with
      | error e =>
          have hst : update_folder_label env v st = st := by
            simp [update_folder_label, h1, h2]
          rw [hst]
          exact hst
      | ok cfg2 =>
          have hst : update_folder_label env v st = { st with workspace := .jsonDoc cfg2 } := by
            simp [update_folder_label, h1, h2, hw]
          rw [hst]
          have h2i := transformConfig_idem ("boxmux v" ++ v) cfg cfg2 h2
          simp [update_folder_label, readWs, h2i, hw]

/-- C3, witness: a second run on the already-updated document changes
nothing. -/
theorem claim_C3_witness :
    update_folder_label envGood "1.5.42" (update_folder_label envGood "1.5.42" stWithBoxmux) =
      update_folder_label envGood "1.5.42" stWithBoxmux :=
  claim_C3 envGood "1.5.42" stWithBoxmux rfl

/-- C7: on a workspace document whose folder records (objects with a
"path" field) all have a non-matching path, and with the write-back
succeeding, `update_folder_label` appends exactly one new record with
path "../boxmux" and name "boxmux v" plus the version at the end of the
array, keeping all prior entries in order and every other top-level key
unchanged. -/
theorem claim_C7 (env : Env) (v : String) (st : SysState)
    (fields : List (String × Json)) (fs : List Json)
    (hws : st.workspace = WsFile.jsonDoc (Json.obj fields))
    (hfold : lookupObj "folders" fields = some (Json.arr fs))
    (hall : ∀ g ∈ fs, ∃ p, pyGetItem g "path" = .ok p ∧ isTargetPath p = false)
    (hw : env.writeWorkspace = .ok ()) :
    (update_folder_label env v st).workspace =
      WsFile.jsonDoc (Json.obj (objSet fields "folders"
        (Json.arr (fs ++ [mkFolder ("boxmux v" ++ v)])))) ∧
    mkFolder ("boxmux v" ++ v) =
      Json.obj [("path", Json.str "../boxmux"), ("name", Json.str ("boxmux v" ++ v))] ∧
    (∀ k, k ≠ "folders" →
      lookupObj k (objSet fields "folders" (Json.arr (fs ++ [mkFolder ("boxmux v" ++ v)]))) =
        lookupObj k fields) ∧
    (update_folder_label env v st).versionTxt = st.versionTxt ∧
    (update_folder_label env v st).staged = st.staged := by
  have hup := updateFolders_all_miss ("boxmux v" ++ v) fs hall
  have htr : transformConfig ("boxmux v" ++ v) (Json.obj fields) =
      .ok (Json.obj (objSet fields "folders"
        (Json.arr (fs ++ [mkFolder ("boxmux v" ++ v)])))) := by
    simp [transformConfig, hfold, hup]
  refine ⟨?_, rfl,
    fun k hk => lookupObj_objSet_ne fields "folders" k
      (Json.arr (fs ++ [mkFolder ("boxmux v" ++ v)])) hk,
    (update_folder_label_frame env v st).1,
    (update_folder_label_frame env v st).2.1⟩
  simp [update_folder_label, hws, readWs, htr, hw]

/-- C7, witness: a document with only a non-matching folder entry gains
exactly the new boxmux entry at the end. -/
theorem claim_C7_witness :
    (update_folder_label envGood "1.5.42" stNoBoxmux).workspace =
      WsFile.jsonDoc (Json.obj
        [("folders", Json.arr
            [Json.obj [("path", Json.str "../other"), ("name", Json.str "other")],
             Json.obj [("path", Json.str "../boxmux"), ("name", Json.str "boxmux v1.5.42")]])]) :=
  (claim_C7 envGood "1.5.42" stNoBoxmux
    [("folders", Json.arr
        [Json.obj [("path", Json.str "../other"), ("name", Json.str "other")]])]
    [Json.obj [("path", Json.str "../other"), ("name", Json.str "other")]]
    rfl rfl
    (by
      intro g hg
      simp only [List.mem_singleton] at hg
      subst hg
      exact ⟨Json.str "../other", rfl, rfl⟩)
    rfl).1

/-- C10, witness: with a failing version-file write, staging area and
call trace stay empty. -/
theorem claim_C10_witness :
    (update_version envFailVersionWrite "1.5.42" stEmpty).staged = stEmpty.staged ∧
    (update_version envFailVersionWrite "1.5.42" stEmpty).calls = stEmpty.calls :=
  claim_C10 envFailVersionWrite "1.5.42" stEmpty PyExc.oSError rfl

end UpdateVersion
